import Mathlib

/-
Verification of the EIA storage-accrual engine core
(`eia_sa.accrual.methods`, `eia_sa.transform.build_gold`,
`eia_sa.accrual.calculator`) against its specification.

Shallow embedding conventions:
- pandas DataFrames of weekly observations / operational-ledger rows become
  Lean lists of records; column filters become `List.filter`,
  `sort_values("date_reported")` becomes a stable insertion sort by date.
- Python floats are idealised as exact rationals (ℚ); the spec states its
  numeric invariants up to 1e-9 tolerance, which exact ℚ equality implies.
- `datetime.date` becomes a `Date` record (proleptic Gregorian calendar);
  date comparison and subtraction go through a day count (`Date.toDays`),
  matching chronological comparison of real dates.
- The filesystem that `MethodC.estimate_gap` reads
  (`pd.read_csv(self.ops_path)`) is modelled as an explicit map from path to
  optional file contents; `none` models `FileNotFoundError`.
- Fallible evaluation (a Python exception) is `Except String`; in
  particular `float(<empty Series>.squeeze())` raises `TypeError`, which the
  embedding of `build_monthly_rollforward` surfaces as `Except.error`.
- A pandas `NaT` arising as `max()` of an empty date column is modelled by
  `Option Date` (`none` = NaT); every comparison of a real date against NaT
  is `False` in pandas, so NaT branches collapse to the documented paths.
-/

namespace EiaSA

/-- Proleptic Gregorian calendar date (year, month 1..12, day 1..31). -/
structure Date where
  y : Nat
  m : Nat
  d : Nat
deriving DecidableEq, Repr

/-- Gregorian leap-year rule. -/
def isLeap (y : Nat) : Bool :=
  y % 4 == 0 && (y % 100 != 0 || y % 400 == 0)

/-- Number of days in month `m` of year `y`. -/
def daysInMonth (y m : Nat) : Nat :=
  if m = 2 then (if isLeap y then 29 else 28)
  else if m = 4 ∨ m = 6 ∨ m = 9 ∨ m = 11 then 30
  else 31

/-- Days in the months of year `y` strictly before month `m` (for
`1 ≤ m ≤ 12`): the cumulative month lengths, written as a sum of guarded
month lengths so that it evaluates by rewriting. -/
def daysBeforeMonth (y m : Nat) : Nat :=
  (if 1 < m then 31 else 0) + (if 2 < m then daysInMonth y 2 else 0)
    + (if 3 < m then 31 else 0) + (if 4 < m then 30 else 0)
    + (if 5 < m then 31 else 0) + (if 6 < m then 30 else 0)
    + (if 7 < m then 31 else 0) + (if 8 < m then 31 else 0)
    + (if 9 < m then 30 else 0) + (if 10 < m then 31 else 0)
    + (if 11 < m then 30 else 0)

/-- Days in all years strictly before year `y` (year 0 counts as a leap year). -/
def daysBeforeYear (y : Nat) : Nat :=
  365 * y + (y + 3) / 4 - (y + 99) / 100 + (y + 399) / 400

/-- Absolute day number of a date; differences of `toDays` are calendar-day
differences, mirroring `(a - b).days` on Python dates. -/
def Date.toDays (dt : Date) : Nat :=
  daysBeforeYear dt.y + daysBeforeMonth dt.y dt.m + dt.d

/-- Chronological `≤` on dates, as pandas compares timestamps. -/
def dateLeB (a b : Date) : Bool := a.toDays ≤ b.toDays

/-- Chronological `<` on dates. -/
def dateLtB (a b : Date) : Bool := a.toDays < b.toDays

/-- Same calendar month: `pd.to_datetime(x).dt.to_period("M") == pd.Period(me)`. -/
def sameMonthB (a b : Date) : Bool := a.y == b.y && a.m == b.m

/-- `_month_end` / `pd.Timestamp(d).to_period("M").end_time.date()`:
the last calendar day of `d`'s month. -/
def monthEnd (d : Date) : Date := ⟨d.y, d.m, daysInMonth d.y d.m⟩

/-- `pd.Timestamp(d) - pd.offsets.MonthBegin(1)`: rolls back to the first of
`d`'s month when `d.day > 1`, otherwise to the first of the previous month
(pandas `roll_convention` semantics for anchored offsets). -/
def monthBeginSub1 (d : Date) : Date :=
  if 1 < d.d then ⟨d.y, d.m, 1⟩
  else if d.m = 1 then ⟨d.y - 1, 12, 1⟩
  else ⟨d.y, d.m - 1, 1⟩

/-- `_gap_days(last_friday, month_end) = max((month_end - last_friday).days, 0)`.
Nat subtraction of day numbers is exactly the max-with-0 of the signed
difference. -/
def gapDays (last_friday month_end : Date) : Nat :=
  month_end.toDays - last_friday.toDays

/-- One row of the weekly silver table: columns `region`, `stratum`
(nullable), `date_reported`, `working_gas_bcf`, `delta_week_bcf`. -/
structure WeeklyObs where
  region : String
  stratum : Option String
  date_reported : Date
  working_gas_bcf : ℚ
  delta_week_bcf : ℚ
deriving DecidableEq, Repr

/-- One row of the operational-ledger CSV read by `MethodC`: columns `date`,
`region`, `stratum` (nullable), `inj_bcf` and `wd_bcf` (nullable numerics,
the code applies `.fillna(0)` before summing). -/
structure OpsRow where
  date : Date
  region : String
  stratum : Option String
  inj_bcf : Option ℚ
  wd_bcf : Option ℚ
deriving DecidableEq, Repr

/-- Python `(stratum or "none")`: `None` and the empty string are falsy. -/
def stratumArg (stratum : Option String) : String :=
  match stratum with
  | none => "none"
  | some s => if s = "" then "none" else s

/-- `w["stratum"].fillna("none")` applied to one row: only a missing value
is replaced. -/
def stratumFill (s : Option String) : String := s.getD "none"

/-- The row predicate
`(w["region"] == region) & (w["stratum"].fillna("none") == (stratum or "none"))`. -/
def groupMatchB (region : String) (stratum : Option String) (o : WeeklyObs) : Bool :=
  o.region == region && stratumFill o.stratum == stratumArg stratum

/-- Insert an observation into a date-sorted list, after all rows whose date
is not later (stable insertion). -/
def insertByDate (x : WeeklyObs) : List WeeklyObs → List WeeklyObs
  | [] => [x]
  | y :: ys =>
      if dateLtB x.date_reported y.date_reported then x :: y :: ys
      else y :: insertByDate x ys

/-- `sort_values("date_reported")`: stable sort by reported date. -/
def sortByDate (l : List WeeklyObs) : List WeeklyObs :=
  l.foldl (fun acc x => insertByDate x acc) []

/-- `_select_series(weekly, region, stratum)`: filter the weekly table to the
(region, stratum) group and sort it by `date_reported` ascending. -/
def selectSeries (weekly : List WeeklyObs) (region : String)
    (stratum : Option String) : List WeeklyObs :=
  sortByDate (weekly.filter (groupMatchB region stratum))

/-- `column.max()` over the `date_reported` column: `none` models the `NaN`
(hence `NaT` after `to_datetime`) that pandas returns on an empty column. -/
def maxDate : List WeeklyObs → Option Date
  | [] => none
  | o :: os =>
      some (os.foldl
        (fun acc x => if dateLtB acc x.date_reported then x.date_reported else acc)
        o.date_reported)

/-- The maximum `date_reported` at or before `asof`
(`sr[sr["date_reported"] <= asof]["date_reported"].max()`); `none` models NaT. -/
def lastReported (sr : List WeeklyObs) (asof : Date) : Option Date :=
  maxDate (sr.filter (fun o => dateLeB o.date_reported asof))

/-- `DataFrame.tail(n)`: the last `n` rows. -/
def takeLast (n : Nat) (l : List WeeklyObs) : List WeeklyObs :=
  l.drop (l.length - n)

/-- `dict.get(key, default)` on the weights dictionary, embedded as an
association list with unique keys. -/
def dictGetD : List (String × ℚ) → String → ℚ → ℚ
  | [], _, dflt => dflt
  | (k, v) :: rest, key, dflt => if k == key then v else dictGetD rest key dflt

/-- The filesystem seen by `pd.read_csv`: path to optional parsed contents,
`none` standing for `FileNotFoundError`. -/
abbrev OpsFs := String → Option (List OpsRow)

/-- Estimator A configuration (`@dataclass MethodA`); the dataclass default
for `lookback_weeks` is 4. -/
structure MethodA where
  lookback_weeks : Nat
deriving DecidableEq, Repr

/-- `MethodA()` with its dataclass defaults. -/
def defaultMethodA : MethodA := ⟨4⟩

/-- `MethodA.estimate_gap`: historical average of the weekly deltas over the
lookback tail, converted to a daily rate and multiplied by the gap days. The
`maxDate = none` branch is the `if sr.empty: return 0.0` guard. -/
def MethodA.estimate_gap (self : MethodA) (weekly : List WeeklyObs) (asof : Date)
    (region : String) (stratum : Option String) : ℚ :=
  let sr := (selectSeries weekly region stratum).filter
    (fun o => dateLeB o.date_reported asof)
  match maxDate sr with
  | none => 0
  | some last_friday =>
      let month_end := monthEnd asof
      let g := gapDays last_friday month_end
      let lookTail := takeLast self.lookback_weeks sr
      if lookTail.isEmpty then 0
      else ((lookTail.map (fun o => o.delta_week_bcf)).sum
              / (7 * (lookTail.length : ℚ))) * (g : ℚ)

/-- Estimator B configuration (`@dataclass MethodB`, no fields). -/
structure MethodB where
deriving DecidableEq, Repr

/-- `MethodB.estimate_gap`: seasonal monthly average. `month_avg` groups the
qualifying rows by calendar month number (year ignored) and averages
`delta_week_bcf / 7`; the lookup `month_avg.loc[asof.month]` touches only the
group of `asof`'s month, and a missing key yields 0.0. -/
def MethodB.estimate_gap (self : MethodB) (weekly : List WeeklyObs) (asof : Date)
    (region : String) (stratum : Option String) : ℚ :=
  let sr := (selectSeries weekly region stratum).filter
    (fun o => dateLeB o.date_reported asof)
  match maxDate sr with
  | none => 0
  | some last_friday =>
      let month_end := monthEnd asof
      let g := gapDays last_friday month_end
      let grp := sr.filter (fun o => o.date_reported.m == asof.m)
      if grp.isEmpty then 0
      else ((grp.map (fun o => o.delta_week_bcf / 7)).sum / (grp.length : ℚ)) * (g : ℚ)

/-- Estimator C configuration (`@dataclass MethodC`); the dataclass default
for `ops_path` is `"data/ops/ops_volumes.csv"`. -/
structure MethodC where
  ops_path : String
deriving DecidableEq, Repr

/-- `MethodC()` with its dataclass defaults. -/
def defaultMethodC : MethodC := ⟨"data/ops/ops_volumes.csv"⟩

/-- `MethodC.estimate_gap`: net injections minus withdrawals from the
operational-ledger file over the window `(last_friday, month_end]`.
The `lastReported = none` branch models the NaT produced by `max()` of an
empty qualifying column: in pandas both `month_end <= NaT` and each
`ops["date"] > NaT` comparison are `False`, so the window filter keeps no
row and the result collapses to 0.0. `fs self.ops_path = none` models
`FileNotFoundError`. -/
def MethodC.estimate_gap (fs : OpsFs) (self : MethodC) (weekly : List WeeklyObs)
    (asof : Date) (region : String) (stratum : Option String) : ℚ :=
  let sr := selectSeries weekly region stratum
  if sr.isEmpty then 0
  else
    match lastReported sr asof with
    | none => 0
    | some last_friday =>
        let month_end := monthEnd asof
        if dateLeB month_end last_friday then 0
        else
          match fs self.ops_path with
          | none => 0
          | some ops =>
              let opsWin := ops.filter (fun r =>
                dateLtB last_friday r.date && dateLeB r.date month_end)
              let opsGrp := opsWin.filter (fun r =>
                r.region == region && stratumFill r.stratum == stratumArg stratum)
              if opsGrp.isEmpty then 0
              else (opsGrp.map (fun r => r.inj_bcf.getD 0)).sum
                     - (opsGrp.map (fun r => r.wd_bcf.getD 0)).sum

/-- `@dataclass BlendedEstimator`: weights dictionary plus the three
component estimators. -/
structure BlendedEstimator where
  weights : List (String × ℚ)
  mA : MethodA
  mB : MethodB
  mC : MethodC

/-- `BlendedEstimator.estimate_gap`: the weighted sum `wA*a + wB*b + wC*c`
with `dict.get` defaults 0.3, 0.2, 0.5 for the keys "A", "B", "C". -/
def BlendedEstimator.estimate_gap (fs : OpsFs) (self : BlendedEstimator)
    (weekly : List WeeklyObs) (asof : Date) (region : String)
    (stratum : Option String) : ℚ :=
  let a := self.mA.estimate_gap weekly asof region stratum
  let b := self.mB.estimate_gap weekly asof region stratum
  let c := MethodC.estimate_gap fs self.mC weekly asof region stratum
  let wA := dictGetD self.weights "A" (3 / 10)
  let wB := dictGetD self.weights "B" (1 / 5)
  let wC := dictGetD self.weights "C" (1 / 2)
  wA * a + wB * b + wC * c

/-- One output row of `build_monthly_rollforward`. `gap_days = none` models
the NaN that pandas propagates when the last reported date is NaT. -/
structure RollRow where
  month_end : Date
  region : String
  stratum : String
  beg_working_gas_bcf : ℚ
  est_injections_bcf : ℚ
  est_withdrawals_bcf : ℚ
  gap_delta_bcf : ℚ
  gap_days : Option Nat
  end_working_gas_bcf : ℚ
deriving DecidableEq, Repr

/-- The beginning-volume expression of `build_monthly_rollforward`:
`float(sr[sr["date_reported"] <= cutoff]["working_gas_bcf"].tail(1).squeeze())
if not sr.empty else 0.0`. On a non-empty group whose filtered selection is
empty, `.tail(1).squeeze()` is an empty Series and `float` raises
`TypeError`; that exception is the `.error` branch. -/
def begVolume (sr : List WeeklyObs) (cutoff : Date) : Except String ℚ :=
  if sr.isEmpty then .ok 0
  else
    match (sr.filter (fun o => dateLeB o.date_reported cutoff)).getLast? with
    | some o => .ok o.working_gas_bcf
    | none => .error "TypeError: cannot convert the series to class float"

/-- `build_monthly_rollforward(weekly_silver, asof, weights, region, stratum)`.
The group filter and sort inline the same predicate as `_select_series`.
`prev_me = _month_end((pd.Timestamp(me) - pd.offsets.MonthBegin(1)).date())`
is embedded through `monthBeginSub1`. The estimator is built with the fully
populated weights dictionary and the dataclass-default component estimators,
and is applied to the unfiltered `weekly_silver`. -/
def build_monthly_rollforward (fs : OpsFs) (weekly_silver : List WeeklyObs)
    (asof : Date) (weights : ℚ × ℚ × ℚ) (region : String)
    (stratum : Option String) : Except String RollRow :=
  let sr := sortByDate (weekly_silver.filter (groupMatchB region stratum))
  let me := monthEnd asof
  let prev_me := monthEnd (monthBeginSub1 me)
  match begVolume sr prev_me with
  | .error e => .error e
  | .ok beg =>
      let in_month := sr.filter (fun o => sameMonthB o.date_reported me)
      let inj := ((in_month.filter
        (fun o => decide ((0 : ℚ) < o.delta_week_bcf))).map
          (fun o => o.delta_week_bcf)).sum
      let wd := -(((in_month.filter
        (fun o => decide (o.delta_week_bcf < (0 : ℚ)))).map
          (fun o => o.delta_week_bcf)).sum)
      let gap_days := (lastReported sr asof).map (fun lf => gapDays lf me)
      let est : BlendedEstimator :=
        ⟨[("A", weights.1), ("B", weights.2.1), ("C", weights.2.2)],
          defaultMethodA, ⟨⟩, defaultMethodC⟩
      let gap_delta :=
        BlendedEstimator.estimate_gap fs est weekly_silver asof region stratum
      let end_est := beg + inj - wd + gap_delta
      .ok ⟨me, region, stratumArg stratum, beg, inj, wd, gap_delta, gap_days, end_est⟩

/-- `DEFAULT_BCF_TO_MMBTU = 1_037_000.0`. -/
def DEFAULT_BCF_TO_MMBTU : ℚ := 1037000

/-- `@dataclass AccrualInputs` (dataclass defaults omitted; every claim
quantifies over all configurations). -/
structure AccrualInputs where
  wacog_per_mmbtu : ℚ
  bcf_to_mmbtu_factor : ℚ
  tariff_fixed_monthly : ℚ
  tariff_injection_per_mmbtu : ℚ
  tariff_withdrawal_per_mmbtu : ℚ
  scenario_band : ℚ
  penalty_probability : ℚ
  penalty_amount : ℚ
deriving DecidableEq, Repr

/-- `_inventory_value(bcf, ai) = bcf * ai.bcf_to_mmbtu_factor * ai.wacog_per_mmbtu`. -/
def _inventory_value (bcf : ℚ) (ai : AccrualInputs) : ℚ :=
  bcf * ai.bcf_to_mmbtu_factor * ai.wacog_per_mmbtu

/-- One output row of `calc_accruals` (its selected column list). -/
structure AccrualRow where
  month_end : Date
  region : String
  stratum : String
  end_working_gas_bcf : ℚ
  inventory_accrual : ℚ
  variable_fees : ℚ
  fixed_demand : ℚ
  penalties_est : ℚ
  total_accrual_low : ℚ
  total_accrual_base : ℚ
  total_accrual_high : ℚ
deriving DecidableEq, Repr

/-- The per-row computation of `calc_accruals`: every column assignment in
the source is an element-wise (row-by-row) operation. -/
def calcAccrualRow (ai : AccrualInputs) (r : RollRow) : AccrualRow :=
  let inventory_accrual := _inventory_value r.end_working_gas_bcf ai
  let inj_mmbtu := r.est_injections_bcf * ai.bcf_to_mmbtu_factor
  let wd_mmbtu := r.est_withdrawals_bcf * ai.bcf_to_mmbtu_factor
  let variable_fees := inj_mmbtu * ai.tariff_injection_per_mmbtu
    + wd_mmbtu * ai.tariff_withdrawal_per_mmbtu
  let fixed_demand := ai.tariff_fixed_monthly
  let penalties_est := ai.penalty_probability * ai.penalty_amount
  let total_accrual_base := inventory_accrual + variable_fees
    + fixed_demand + penalties_est
  ⟨r.month_end, r.region, r.stratum, r.end_working_gas_bcf,
    inventory_accrual, variable_fees, fixed_demand, penalties_est,
    total_accrual_base * (1 - ai.scenario_band),
    total_accrual_base,
    total_accrual_base * (1 + ai.scenario_band)⟩

/-- `calc_accruals(monthly_roll, ai)`: the row-wise accrual computation over
the rollforward table. -/
def calc_accruals (monthly_roll : List RollRow) (ai : AccrualInputs) :
    List AccrualRow :=
  monthly_roll.map (calcAccrualRow ai)

/-- The qualifying series of estimators A and B: the (region, stratum) group,
date-sorted, restricted to reported dates at or before `asof`
(the two successive assignments to `sr` in their bodies). -/
def qualifying (weekly : List WeeklyObs) (asof : Date) (region : String)
    (stratum : Option String) : List WeeklyObs :=
  (selectSeries weekly region stratum).filter (fun o => dateLeB o.date_reported asof)

/- Concrete data used by evaluation theorems and witnesses. The two
observations are the worked scenario of the specification (section 8). -/

/-- Spec scenario observation: 2025-07-25, working gas 3100, delta 0. -/
def sqO1 : WeeklyObs := ⟨"US", none, ⟨2025, 7, 25⟩, 3100, 0⟩

/-- Spec scenario observation: 2025-08-01, working gas 3150, delta 50. -/
def sqO2 : WeeklyObs := ⟨"US", none, ⟨2025, 8, 1⟩, 3150, 50⟩

/-- An observation dated after the accounting month (2025-09-05). -/
def obsSep : WeeklyObs := ⟨"US", none, ⟨2025, 9, 5⟩, 3200, 10⟩

/-- An observation dated after a first-quarter `asof` (2025-04-04). -/
def obsApr : WeeklyObs := ⟨"US", none, ⟨2025, 4, 4⟩, 3200, 5⟩

/-- A filesystem with no readable file (`FileNotFoundError` everywhere). -/
def fs0 : OpsFs := fun _ => none

/-- A filesystem whose operational-ledger file holds one 5 bcf injection on
2025-08-15 for (US, none). -/
def fsOps : OpsFs := fun p =>
  if p = "data/ops/ops_volumes.csv" then some [⟨⟨2025, 8, 15⟩, "US", none, some 5, none⟩]
  else none

/-- A filesystem distinct from `fs0` as a function term, with the same
(absent) operational-ledger file. -/
def fsOther : OpsFs := fun p => if p = "elsewhere.csv" then some [] else none

/-- The row `build_monthly_rollforward` produces from the spec scenario
(`[sqO1, sqO2]`, asof 2025-08-31, default weights, no ledger file). -/
def row8 : RollRow :=
  ⟨⟨2025, 8, 31⟩, "US", "none", 3150, 50, 0, 75, some 30, 3275⟩

/-- The spec scenario `AccrualInputs` (section 8): wacog 3.25, factor
1,037,000, fixed 120,000, injection 0.02, withdrawal 0.03, band 0.10. -/
def aiEx : AccrualInputs :=
  ⟨13 / 4, 1037000, 120000, 1 / 50, 3 / 100, 1 / 10, 0, 0⟩

/-- The row built from the spec scenario when the ledger file of `fsOps` is
present: estimator C contributes 5 bcf, weighted 0.5, on top of `row8`. -/
def row8ops : RollRow :=
  ⟨⟨2025, 8, 31⟩, "US", "none", 3150, 50, 0, 155 / 2, some 30, 6555 / 2⟩

/-- A blended estimator instance used by witnesses. -/
def blEx : BlendedEstimator := ⟨[("A", 1)], defaultMethodA, ⟨⟩, defaultMethodC⟩

/-- A list of rationals that are all nonpositive sums to a nonpositive value. -/
theorem list_sum_nonpos (l : List ℚ) (h : ∀ x ∈ l, x ≤ 0) : l.sum ≤ 0 := by
  induction l with
  | nil => simp
  | cons a t ih =>
      have ha := h a (by simp)
      have ht := ih (fun x hx => h x (by simp [hx]))
      simp only [List.sum_cons]
      linarith

/-- Evaluation of the builder on the spec scenario with no ledger file:
beginning 3150, in-month injections 50, blended gap 75, ending 3275. -/
theorem eval_build_spec :
    build_monthly_rollforward fs0 [sqO1, sqO2] ⟨2025, 8, 31⟩ (3 / 10, 1 / 5, 1 / 2)
      "US" none = Except.ok row8 := by
  have hb : begVolume (sortByDate (List.filter (groupMatchB "US" none) [sqO1, sqO2]))
      (monthEnd (monthBeginSub1 (monthEnd ⟨2025, 8, 31⟩))) = Except.ok 3150 := rfl
  simp only [build_monthly_rollforward, hb]
  norm_num [MethodA.estimate_gap, MethodB.estimate_gap, MethodC.estimate_gap,
    BlendedEstimator.estimate_gap, defaultMethodA, defaultMethodC, selectSeries,
    sortByDate, insertByDate, sqO1, sqO2, maxDate, takeLast, lastReported, dictGetD,
    gapDays, monthEnd, stratumArg, stratumFill, groupMatchB, row8, fs0, dateLtB,
    dateLeB, sameMonthB, Date.toDays, daysBeforeYear, daysBeforeMonth, daysInMonth,
    isLeap, monthBeginSub1,
    (show (("A" : String) = "B") = False from eq_false (by decide))]

/-- Evaluation of the builder on the spec scenario when the operational
ledger of `fsOps` is readable: estimator C now contributes. -/
theorem eval_build_ops :
    build_monthly_rollforward fsOps [sqO1, sqO2] ⟨2025, 8, 31⟩ (3 / 10, 1 / 5, 1 / 2)
      "US" none = Except.ok row8ops := by
  have hb : begVolume (sortByDate (List.filter (groupMatchB "US" none) [sqO1, sqO2]))
      (monthEnd (monthBeginSub1 (monthEnd ⟨2025, 8, 31⟩))) = Except.ok 3150 := rfl
  simp only [build_monthly_rollforward, hb]
  norm_num [MethodA.estimate_gap, MethodB.estimate_gap, MethodC.estimate_gap,
    BlendedEstimator.estimate_gap, defaultMethodA, defaultMethodC, selectSeries,
    sortByDate, insertByDate, sqO1, sqO2, maxDate, takeLast, lastReported, dictGetD,
    gapDays, monthEnd, stratumArg, stratumFill, groupMatchB, row8ops, fsOps, dateLtB,
    dateLeB, sameMonthB, Date.toDays, daysBeforeYear, daysBeforeMonth, daysInMonth,
    isLeap, monthBeginSub1,
    (show (("A" : String) = "B") = False from eq_false (by decide)),
    (show (("A" : String) = "C") = False from eq_false (by decide)),
    (show (("B" : String) = "C") = False from eq_false (by decide))]

/-- C2: in every row `calc_accruals` produces, the low and high scenario
totals are the base total scaled by `1 ∓ scenario_band`. -/
theorem accrual_band_invariant (roll : List RollRow) (ai : AccrualInputs)
    (a : AccrualRow) (ha : a ∈ calc_accruals roll ai) :
    a.total_accrual_low = a.total_accrual_base * (1 - ai.scenario_band) ∧
    a.total_accrual_high = a.total_accrual_base * (1 + ai.scenario_band) := by
  simp only [calc_accruals, List.mem_map] at ha
  obtain ⟨r, _, rfl⟩ := ha
  exact ⟨rfl, rfl⟩

/-- C2 witness: the band invariant instantiated on the spec-scenario row and
accrual inputs. -/
theorem accrual_band_invariant_witness :
    calcAccrualRow aiEx row8 ∈ calc_accruals [row8] aiEx ∧
    ((calcAccrualRow aiEx row8).total_accrual_low
        = (calcAccrualRow aiEx row8).total_accrual_base * (1 - aiEx.scenario_band) ∧
      (calcAccrualRow aiEx row8).total_accrual_high
        = (calcAccrualRow aiEx row8).total_accrual_base * (1 + aiEx.scenario_band)) :=
  ⟨by simp [calc_accruals],
    accrual_band_invariant [row8] aiEx (calcAccrualRow aiEx row8) (by simp [calc_accruals])⟩

/-- C3: for every input row, `calc_accruals` emits the corresponding output
row whose components follow the documented formulas: inventory value from the
ending volume, variable fees from the in-month flows and tariffs, fixed
demand as an unchanged passthrough, the penalty expectation, and the base
total as the sum of the four. -/
theorem accrual_components_formula (roll : List RollRow) (ai : AccrualInputs)
    (r : RollRow) (hr : r ∈ roll) :
    calcAccrualRow ai r ∈ calc_accruals roll ai ∧
    (calcAccrualRow ai r).inventory_accrual
      = r.end_working_gas_bcf * ai.bcf_to_mmbtu_factor * ai.wacog_per_mmbtu ∧
    (calcAccrualRow ai r).variable_fees
      = r.est_injections_bcf * ai.bcf_to_mmbtu_factor * ai.tariff_injection_per_mmbtu
        + r.est_withdrawals_bcf * ai.bcf_to_mmbtu_factor * ai.tariff_withdrawal_per_mmbtu ∧
    (calcAccrualRow ai r).fixed_demand = ai.tariff_fixed_monthly ∧
    (calcAccrualRow ai r).penalties_est = ai.penalty_probability * ai.penalty_amount ∧
    (calcAccrualRow ai r).total_accrual_base
      = (calcAccrualRow ai r).inventory_accrual + (calcAccrualRow ai r).variable_fees
        + (calcAccrualRow ai r).fixed_demand + (calcAccrualRow ai r).penalties_est := by
  exact ⟨List.mem_map_of_mem _ hr, rfl, rfl, rfl, rfl, rfl⟩

/-- C3 witness: the component formulas instantiated on the spec-scenario row
and accrual inputs. -/
theorem accrual_components_formula_witness :
    row8 ∈ [row8] ∧
    (calcAccrualRow aiEx row8).inventory_accrual
      = row8.end_working_gas_bcf * aiEx.bcf_to_mmbtu_factor * aiEx.wacog_per_mmbtu :=
  ⟨by simp, (accrual_components_formula [row8] aiEx row8 (by simp)).2.1⟩

/-- C5: the blended estimate is the weighted sum `wA*A + wB*B + wC*C` of the
three component estimates on the same inputs, with the weights read from the
caller-supplied dictionary (defaults 0.3, 0.2, 0.5 for missing keys) and no
normalization applied. -/
theorem blended_weighted_sum (fs : OpsFs) (b : BlendedEstimator)
    (weekly : List WeeklyObs) (asof : Date) (region : String)
    (stratum : Option String) :
    BlendedEstimator.estimate_gap fs b weekly asof region stratum =
      dictGetD b.weights "A" (3 / 10)
          * b.mA.estimate_gap weekly asof region stratum
        + dictGetD b.weights "B" (1 / 5)
          * b.mB.estimate_gap weekly asof region stratum
        + dictGetD b.weights "C" (1 / 2)
          * MethodC.estimate_gap fs b.mC weekly asof region stratum := rfl

/-- C1: every row the rollforward builder returns satisfies
`ending = beginning + injections − withdrawals + gap_estimate` exactly. -/
theorem rollforward_ending_invariant (fs : OpsFs) (weekly : List WeeklyObs)
    (asof : Date) (w : ℚ × ℚ × ℚ) (region : String) (stratum : Option String)
    (row : RollRow)
    (h : build_monthly_rollforward fs weekly asof w region stratum = Except.ok row) :
    row.end_working_gas_bcf = row.beg_working_gas_bcf + row.est_injections_bcf
      - row.est_withdrawals_bcf + row.gap_delta_bcf := by
  simp only [build_monthly_rollforward] at h
  split at h
  · exact absurd h (by simp)
  · cases h
    rfl

/-- C1 witness: the invariant on the row built from the spec scenario. -/
theorem rollforward_ending_invariant_witness :
    build_monthly_rollforward fs0 [sqO1, sqO2] ⟨2025, 8, 31⟩ (3 / 10, 1 / 5, 1 / 2)
        "US" none = Except.ok row8 ∧
    row8.end_working_gas_bcf = row8.beg_working_gas_bcf + row8.est_injections_bcf
      - row8.est_withdrawals_bcf + row8.gap_delta_bcf :=
  ⟨eval_build_spec,
    rollforward_ending_invariant fs0 [sqO1, sqO2] ⟨2025, 8, 31⟩
      (3 / 10, 1 / 5, 1 / 2) "US" none row8 eval_build_spec⟩

/-- C10: the in-month flow split makes both estimated flows nonnegative in
every row the builder returns: injections sum the positive weekly deltas,
withdrawals the negated negative ones. -/
theorem rollforward_flows_nonneg (fs : OpsFs) (weekly : List WeeklyObs)
    (asof : Date) (w : ℚ × ℚ × ℚ) (region : String) (stratum : Option String)
    (row : RollRow)
    (h : build_monthly_rollforward fs weekly asof w region stratum = Except.ok row) :
    0 ≤ row.est_injections_bcf ∧ 0 ≤ row.est_withdrawals_bcf := by
  simp only [build_monthly_rollforward] at h
  split at h
  · exact absurd h (by simp)
  · cases h
    constructor
    · apply List.sum_nonneg
      intro x hx
      simp only [List.mem_map, List.mem_filter] at hx
      obtain ⟨o, ⟨_, ho⟩, rfl⟩ := hx
      exact le_of_lt (of_decide_eq_true ho)
    · refine neg_nonneg.mpr (list_sum_nonpos _ ?_)
      intro x hx
      simp only [List.mem_map, List.mem_filter] at hx
      obtain ⟨o, ⟨_, ho⟩, rfl⟩ := hx
      exact le_of_lt (of_decide_eq_true ho)

/-- C10 witness: nonnegative flows on the row built from the spec scenario. -/
theorem rollforward_flows_nonneg_witness :
    build_monthly_rollforward fs0 [sqO1, sqO2] ⟨2025, 8, 31⟩ (3 / 10, 1 / 5, 1 / 2)
        "US" none = Except.ok row8 ∧
    0 ≤ row8.est_injections_bcf ∧ 0 ≤ row8.est_withdrawals_bcf :=
  ⟨eval_build_spec,
    rollforward_flows_nonneg fs0 [sqO1, sqO2] ⟨2025, 8, 31⟩
      (3 / 10, 1 / 5, 1 / 2) "US" none row8 eval_build_spec⟩

/-- C4: when the (region, stratum) restriction of the observations is empty,
each estimator and the blended estimator return 0.0 (no error value). -/
theorem estimators_empty_group_zero (fs : OpsFs) (a : MethodA) (b : MethodB)
    (c : MethodC) (bl : BlendedEstimator) (weekly : List WeeklyObs) (asof : Date)
    (region : String) (stratum : Option String)
    (h : weekly.filter (groupMatchB region stratum) = []) :
    a.estimate_gap weekly asof region stratum = 0 ∧
    b.estimate_gap weekly asof region stratum = 0 ∧
    MethodC.estimate_gap fs c weekly asof region stratum = 0 ∧
    BlendedEstimator.estimate_gap fs bl weekly asof region stratum = 0 := by
  have hsel : selectSeries weekly region stratum = [] := by
    simp [selectSeries, h, sortByDate]
  have hA : ∀ m : MethodA, m.estimate_gap weekly asof region stratum = 0 := by
    intro m
    simp [MethodA.estimate_gap, hsel, maxDate]
  have hB : ∀ m : MethodB, m.estimate_gap weekly asof region stratum = 0 := by
    intro m
    simp [MethodB.estimate_gap, hsel, maxDate]
  have hC : ∀ m : MethodC, MethodC.estimate_gap fs m weekly asof region stratum = 0 := by
    intro m
    simp [MethodC.estimate_gap, hsel]
  refine ⟨hA a, hB b, hC c, ?_⟩
  simp [BlendedEstimator.estimate_gap, hA bl.mA, hB bl.mB, hC bl.mC]

/-- C4 witness: a group with no observations (region "East" never occurs)
yields 0.0 from every estimator. -/
theorem estimators_empty_group_zero_witness :
    ([sqO1].filter (groupMatchB "East" none) = []) ∧
    (defaultMethodA.estimate_gap [sqO1] ⟨2025, 8, 31⟩ "East" none = 0 ∧
      MethodB.mk.estimate_gap [sqO1] ⟨2025, 8, 31⟩ "East" none = 0 ∧
      MethodC.estimate_gap fs0 defaultMethodC [sqO1] ⟨2025, 8, 31⟩ "East" none = 0 ∧
      BlendedEstimator.estimate_gap fs0 blEx [sqO1] ⟨2025, 8, 31⟩ "East" none = 0) :=
  ⟨by rfl,
    estimators_empty_group_zero fs0 defaultMethodA ⟨⟩ defaultMethodC blEx
      [sqO1] ⟨2025, 8, 31⟩ "East" none (by rfl)⟩

/-- C6: estimator A's default lookback is 4, and on any non-empty qualifying
series it returns the average of the weekly deltas over the
`lookback_weeks` most recent qualifying observations, divided by 7 times
their count, multiplied by the gap-day count from the last reported date to
the month end of `asof`. -/
theorem methodA_lookback_average :
    defaultMethodA.lookback_weeks = 4 ∧
    ∀ (m : MethodA) (weekly : List WeeklyObs) (asof : Date) (region : String)
      (stratum : Option String) (lf : Date),
      maxDate (qualifying weekly asof region stratum) = some lf →
      m.estimate_gap weekly asof region stratum =
        ((takeLast m.lookback_weeks (qualifying weekly asof region stratum)).map
            (fun o => o.delta_week_bcf)).sum
          / (7 * ((takeLast m.lookback_weeks
              (qualifying weekly asof region stratum)).length : ℚ))
          * ((gapDays lf (monthEnd asof) : ℚ)) := by
  refine ⟨rfl, ?_⟩
  intro m weekly asof region stratum lf hlf
  simp only [qualifying] at hlf
  simp only [MethodA.estimate_gap, qualifying, hlf]
  by_cases hT : (takeLast m.lookback_weeks
      ((selectSeries weekly region stratum).filter
        (fun o => dateLeB o.date_reported asof))).isEmpty
  · rw [List.isEmpty_iff] at hT
    simp [hT]
  · simp [hT]

/-- C7: refutation of uniform graceful degradation. On a group whose
observations all postdate `asof` (one observation on 2025-04-04, asof
2025-03-31), estimators A and B do return 0.0, but
`build_monthly_rollforward` raises the `TypeError` of `float()` applied to
the empty beginning-volume selection instead of degrading to 0.0. -/
theorem builder_raises_on_future_only_group :
    [obsApr].filter (groupMatchB "US" none) ≠ [] ∧
    qualifying [obsApr] ⟨2025, 3, 31⟩ "US" none = [] ∧
    defaultMethodA.estimate_gap [obsApr] ⟨2025, 3, 31⟩ "US" none = 0 ∧
    MethodB.mk.estimate_gap [obsApr] ⟨2025, 3, 31⟩ "US" none = 0 ∧
    build_monthly_rollforward fs0 [obsApr] ⟨2025, 3, 31⟩ (3 / 10, 1 / 5, 1 / 2)
      "US" none = Except.error "TypeError: cannot convert the series to class float" :=
  ⟨by decide, rfl, rfl, rfl, rfl⟩

/-- The cutoff used for the beginning volume collapses to the current month
end: subtracting `MonthBegin(1)` from a month-end date only rolls back to
the first of that same month, and taking the month end again returns the
original date. -/
theorem prev_month_end_collapses (d : Date) :
    monthEnd (monthBeginSub1 (monthEnd d)) = monthEnd d := by
  cases d with
  | mk y m dd =>
      simp only [monthEnd, monthBeginSub1, daysInMonth]
      split_ifs <;> first | rfl | omega

/-- C8: refutation of the previous-month-end beginning volume. On the spec
scenario the builder takes the 2025-08-01 volume 3150 (an observation inside
the target month) as the beginning volume, not the previous-month-end volume
3100, because its cutoff equals the current month end; and on a non-empty
group with no observation at or before that cutoff it raises a `TypeError`
instead of using the 0.0 cold-start. -/
theorem beginning_volume_cutoff_bug :
    (∀ d : Date, monthEnd (monthBeginSub1 (monthEnd d)) = monthEnd d) ∧
    build_monthly_rollforward fs0 [sqO1, sqO2] ⟨2025, 8, 31⟩ (3 / 10, 1 / 5, 1 / 2)
      "US" none = Except.ok row8 ∧
    row8.beg_working_gas_bcf = sqO2.working_gas_bcf ∧
    row8.beg_working_gas_bcf ≠ sqO1.working_gas_bcf ∧
    [obsSep].filter (groupMatchB "US" none) ≠ [] ∧
    build_monthly_rollforward fs0 [obsSep] ⟨2025, 8, 31⟩ (3 / 10, 1 / 5, 1 / 2)
      "US" none = Except.error "TypeError: cannot convert the series to class float" :=
  ⟨prev_month_end_collapses, eval_build_spec, rfl,
    by norm_num [row8, sqO1], by decide, rfl⟩

/-- C9 counterexample: two invocations of the builder with identical
observation data, asof date, weights, region and stratum, differing only in
the filesystem state of the operational-ledger file, give different outputs. -/
theorem builder_reads_external_ops_file :
    build_monthly_rollforward fsOps [sqO1, sqO2] ⟨2025, 8, 31⟩ (3 / 10, 1 / 5, 1 / 2)
        "US" none ≠
      build_monthly_rollforward fs0 [sqO1, sqO2] ⟨2025, 8, 31⟩ (3 / 10, 1 / 5, 1 / 2)
        "US" none := by
  rw [eval_build_ops, eval_build_spec]
  intro h
  injection h with h
  have hg := congrArg RollRow.gap_delta_bcf h
  norm_num [row8, row8ops] at hg

/-- The only filesystem read of `MethodC.estimate_gap` is its `ops_path`. -/
theorem methodC_fs_congr (fs1 fs2 : OpsFs) (c : MethodC) (weekly : List WeeklyObs)
    (asof : Date) (region : String) (stratum : Option String)
    (h : fs1 c.ops_path = fs2 c.ops_path) :
    MethodC.estimate_gap fs1 c weekly asof region stratum
      = MethodC.estimate_gap fs2 c weekly asof region stratum := by
  simp only [MethodC.estimate_gap, h]

/-- The blended estimator touches the filesystem only through estimator C. -/
theorem blended_fs_congr (fs1 fs2 : OpsFs) (b : BlendedEstimator)
    (weekly : List WeeklyObs) (asof : Date) (region : String)
    (stratum : Option String) (h : fs1 b.mC.ops_path = fs2 b.mC.ops_path) :
    BlendedEstimator.estimate_gap fs1 b weekly asof region stratum
      = BlendedEstimator.estimate_gap fs2 b weekly asof region stratum := by
  simp only [BlendedEstimator.estimate_gap]
  rw [methodC_fs_congr fs1 fs2 b.mC weekly asof region stratum h]

/-- C9 (amended): the builder is a deterministic function of its arguments
plus the contents of the operational-ledger file at the default path; any
two filesystem states agreeing on that one file give identical outputs. -/
theorem builder_deterministic_given_ops_file (fs1 fs2 : OpsFs)
    (weekly : List WeeklyObs) (asof : Date) (w : ℚ × ℚ × ℚ) (region : String)
    (stratum : Option String)
    (h : fs1 defaultMethodC.ops_path = fs2 defaultMethodC.ops_path) :
    build_monthly_rollforward fs1 weekly asof w region stratum
      = build_monthly_rollforward fs2 weekly asof w region stratum := by
  simp only [build_monthly_rollforward]
  rw [blended_fs_congr fs1 fs2
    ⟨[("A", w.1), ("B", w.2.1), ("C", w.2.2)], defaultMethodA, ⟨⟩, defaultMethodC⟩
    weekly asof region stratum h]

/-- C9 amended witness: two distinct filesystem functions with the same
(absent) ledger file give identical builder outputs. -/
theorem builder_deterministic_given_ops_file_witness :
    fs0 defaultMethodC.ops_path = fsOther defaultMethodC.ops_path ∧
    build_monthly_rollforward fs0 [sqO1, sqO2] ⟨2025, 8, 31⟩ (3 / 10, 1 / 5, 1 / 2)
        "US" none
      = build_monthly_rollforward fsOther [sqO1, sqO2] ⟨2025, 8, 31⟩
        (3 / 10, 1 / 5, 1 / 2) "US" none :=
  ⟨by decide,
    builder_deterministic_given_ops_file fs0 fsOther [sqO1, sqO2] ⟨2025, 8, 31⟩
      (3 / 10, 1 / 5, 1 / 2) "US" none (by decide)⟩

/-- C6 witness: estimator A on the spec scenario, last reported 2025-08-01,
gap 30 days, lookback covering both observations. -/
theorem methodA_lookback_average_witness :
    maxDate (qualifying [sqO1, sqO2] ⟨2025, 8, 31⟩ "US" none) = some ⟨2025, 8, 1⟩ ∧
    defaultMethodA.estimate_gap [sqO1, sqO2] ⟨2025, 8, 31⟩ "US" none =
      ((takeLast defaultMethodA.lookback_weeks
          (qualifying [sqO1, sqO2] ⟨2025, 8, 31⟩ "US" none)).map
            (fun o => o.delta_week_bcf)).sum
        / (7 * ((takeLast defaultMethodA.lookback_weeks
            (qualifying [sqO1, sqO2] ⟨2025, 8, 31⟩ "US" none)).length : ℚ))
        * ((gapDays ⟨2025, 8, 1⟩ (monthEnd ⟨2025, 8, 31⟩) : ℚ)) :=
  ⟨by rfl,
    methodA_lookback_average.2 defaultMethodA [sqO1, sqO2] ⟨2025, 8, 31⟩
      "US" none ⟨2025, 8, 1⟩ (by rfl)⟩

end EiaSA
